import Mathlib

/-!
Verification of the impulse-response distribution models of the pyhawkes
repository (file pyhawkes/internals/impulses.py), shallowly embedded in Lean.

Numpy arrays of dynamic shape are modelled as a record of shape numbers
together with a total valuation function; the Dirichlet random sampler
(np.random.dirichlet) is modelled abstractly as a function from a pair of
process indices and a concentration vector to a length-B real vector.
Python methods that mutate the object are modelled as state transformers
returning the post-call state together with an Except value recording
whether the call raised (an assert failure or NotImplementedError) or
completed; the post-call state on a raise reflects exactly the fields the
Python method had assigned before the raise (for these methods: none).
-/

namespace PyHawkes

/-- Model of a 4-dimensional numpy array: shape fields (T, d1, d2, d3) and a
total valuation; entries outside the shape are irrelevant junk. -/
structure Arr4 where
  T : ℕ
  d1 : ℕ
  d2 : ℕ
  d3 : ℕ
  val : ℕ → ℕ → ℕ → ℕ → ℝ

/-- Model of a 3-dimensional numpy array. -/
structure Arr3 where
  d1 : ℕ
  d2 : ℕ
  d3 : ℕ
  val : ℕ → ℕ → ℕ → ℝ

/-- The gamma argument accepted by both constructors: absent, a scalar, or a
numpy vector of some length n (the assert demands n = B). -/
inductive GammaArg where
  | absent : GammaArg
  | scalar : ℝ → GammaArg
  | vector : ℕ → (ℕ → ℝ) → GammaArg

/-- Constructor logic for the gamma field, from impulses.py lines 28-39
(shared verbatim by the SBM variant, lines 190-201): a scalar is broadcast
with np.ones(B), an absent gamma becomes np.ones(B), a vector must have
shape (B,) or the assert raises. -/
def gammaOfArg (B : ℕ) : GammaArg → Except String (Fin B → ℝ)
  | GammaArg.absent => Except.ok fun _ => 1
  | GammaArg.scalar c => Except.ok fun _ => c
  | GammaArg.vector n v =>
      if n = B then Except.ok fun b => v b.val
      else Except.error "gamma must be a scalar or a length B vector"

/-- State of a DirichletImpulseResponses object: the prior concentration
gamma (length B), the current sample g (K x K x B) and the mean-field
concentrations mf_gamma (K x K x B). K and B are type indices, so the
array shapes are carried by the types. -/
structure DirichletImpulseResponses (K B : ℕ) where
  gamma : Fin B → ℝ
  g : Fin K → Fin K → Fin B → ℝ
  mf_gamma : Fin K → Fin K → Fin B → ℝ

/-- Abstract model of np.random.dirichlet: for each ordered pair (k1, k2)
and a concentration vector alpha, the value drawn for that pair. -/
def Sampler (K B : ℕ) := Fin K → Fin K → (Fin B → ℝ) → Fin B → ℝ

/-- DirichletImpulseResponses._get_suff_statistics (lines 73-86): with data
present, data.sum(axis=0); with data absent, np.zeros((K, K, B)).
The helper itself performs no shape validation. -/
def getSuffStatistics {K B : ℕ} (st : DirichletImpulseResponses K B) :
    Option Arr4 → ℕ → ℕ → ℕ → ℝ
  | some d => fun k1 k2 b => ∑ t ∈ Finset.range d.T, d.val t k1 k2 b
  | none => fun _ _ _ => let _ := st; 0

/-- The posterior concentration gamma + ss[k1, k2, :] of resample line 105. -/
def alphaPost {K B : ℕ} (st : DirichletImpulseResponses K B)
    (data : Option Arr4) (k1 k2 : Fin K) : Fin B → ℝ :=
  fun b => st.gamma b + getSuffStatistics st data k1.val k2.val b.val

/-- DirichletImpulseResponses.resample (lines 88-106): assert that data,
when present, is 4-dimensional with middle axes K and last axis B (rank 4
is structural in Arr4), then overwrite every g[k1, k2, :] with a Dirichlet
draw at concentration gamma + suff_statistics[k1, k2, :]. On an assert
failure the state is returned untouched, since the assert precedes the
loop that assigns g. -/
def resample {K B : ℕ} (sampler : Sampler K B)
    (st : DirichletImpulseResponses K B) (data : Option Arr4) :
    DirichletImpulseResponses K B × Except String Unit :=
  match data with
  | none =>
      ({ st with g := fun k1 k2 b => sampler k1 k2 (alphaPost st none k1 k2) b },
       Except.ok ())
  | some d =>
      if d.d1 = K ∧ d.d2 = K ∧ d.d3 = B then
        ({ st with
            g := fun k1 k2 b => sampler k1 k2 (alphaPost st (some d) k1 k2) b },
         Except.ok ())
      else (st, Except.error "Data must be a TxKxKxB array of parents")

/-- Log of the Gamma function, modelling scipy.special.gammaln on the
positive reals. -/
noncomputable def gammaln (x : ℝ) : ℝ := Real.log (Real.Gamma x)

/-- DirichletImpulseResponses.log_likelihood (lines 56-68): assert x has
shape (K, K, B); return K^2 * Z + sum over pairs and bases of
(gamma_b - 1) * ln x, with Z the Dirichlet log-normalizer. The method
reads but never writes the state. -/
noncomputable def log_likelihood {K B : ℕ} (st : DirichletImpulseResponses K B)
    (x : Arr3) : Except String ℝ :=
  if x.d1 = K ∧ x.d2 = K ∧ x.d3 = B then
    Except.ok ((K : ℝ) ^ 2 *
        ((∑ b, gammaln (st.gamma b)) - gammaln (∑ b, st.gamma b))
      + ∑ k1 ∈ Finset.range K, ∑ k2 ∈ Finset.range K, ∑ b : Fin B,
          (st.gamma b - 1) * Real.log (x.val k1 k2 b.val))
  else Except.error "x must be a KxKxB array of impulse responses"

/-- DirichletImpulseResponses.mf_update_gamma (lines 124-130):
gamma_hat = gamma + EZ.sum(axis=0) / minibatchfrac, then
mf_gamma = (1 - stepsize) * mf_gamma + stepsize * gamma_hat.
No shape validation is performed on EZ. -/
noncomputable def mf_update_gamma {K B : ℕ} (st : DirichletImpulseResponses K B)
    (EZ : Arr4) (minibatchfrac stepsize : ℝ) :
    DirichletImpulseResponses K B :=
  { st with
      mf_gamma := fun k1 k2 b =>
        (1 - stepsize) * st.mf_gamma k1 k2 b
          + stepsize * (st.gamma b
              + (∑ t ∈ Finset.range EZ.T, EZ.val t k1.val k2.val b.val)
                / minibatchfrac) }

/-- DirichletImpulseResponses.meanfieldupdate (lines 135-136): delegates to
mf_update_gamma with the default minibatchfrac = 1.0 and stepsize = 1.0. -/
noncomputable def meanfieldupdate {K B : ℕ} (st : DirichletImpulseResponses K B)
    (EZ : Arr4) : DirichletImpulseResponses K B :=
  mf_update_gamma st EZ 1 1

/-- DirichletImpulseResponses.meanfield_sgdstep (lines 138-139): delegates
to mf_update_gamma with explicit minibatchfrac and stepsize. -/
noncomputable def meanfield_sgdstep {K B : ℕ} (st : DirichletImpulseResponses K B)
    (EZ : Arr4) (minibatchfrac stepsize : ℝ) :
    DirichletImpulseResponses K B :=
  mf_update_gamma st EZ minibatchfrac stepsize

/-- DirichletImpulseResponses.resample_from_mf (lines 161-169): overwrite
every g[k1, k2, :] with a Dirichlet draw at concentration
mf_gamma[k1, k2, :]. Never raises; gamma and mf_gamma are not assigned. -/
def resample_from_mf {K B : ℕ} (sampler : Sampler K B)
    (st : DirichletImpulseResponses K B) : DirichletImpulseResponses K B :=
  { st with g := fun k1 k2 b => sampler k1 k2 (st.mf_gamma k1 k2) b }

/-- DirichletImpulseResponses.__init__ (lines 14-46): validate gamma and
build the length-B prior vector, allocate g with np.empty (modelled as the
all-zero junk array), draw the initial g by calling resample with no data,
then set mf_gamma to gamma broadcast over all K x K pairs. An exception in
any step propagates. -/
def dirInit {K B : ℕ} (sampler : Sampler K B) (garg : GammaArg) :
    Except String (DirichletImpulseResponses K B) :=
  match gammaOfArg B garg with
  | Except.error e => Except.error e
  | Except.ok γ =>
      let st0 : DirichletImpulseResponses K B :=
        { gamma := γ, g := fun _ _ _ => 0, mf_gamma := fun _ _ _ => 0 }
      let r := resample sampler st0 none
      match r.2 with
      | Except.error e => Except.error e
      | Except.ok _ => Except.ok { r.1 with mf_gamma := fun _ _ b => γ b }

/-- State of an SBMDirichletImpulseResponses object (lines 172-208): the
arrays are C x C x B; K is retained for reference only. -/
structure SBMDirichletImpulseResponses (C K B : ℕ) where
  gamma : Fin B → ℝ
  blockg : Fin C → Fin C → Fin B → ℝ
  mf_gamma : Fin C → Fin C → Fin B → ℝ

/-- SBMDirichletImpulseResponses.resample (lines 252-271): raises
NotImplementedError before touching any state. -/
def sbmResample {C K B : ℕ} (st : SBMDirichletImpulseResponses C K B)
    (data : Option Arr4) :
    SBMDirichletImpulseResponses C K B × Except String Unit :=
  let _ := data
  (st, Except.error "NotImplementedError")

/-- SBMDirichletImpulseResponses.__init__ (lines 178-208): validate gamma,
allocate blockg with np.empty (all-zero junk), then call resample() with no
data; since resample raises NotImplementedError, the exception propagates
out of the constructor and the mf_gamma assignment on line 208 is never
reached. -/
def sbmInit (C K B : ℕ) (garg : GammaArg) :
    Except String (SBMDirichletImpulseResponses C K B) :=
  match gammaOfArg B garg with
  | Except.error e => Except.error e
  | Except.ok γ =>
      let st0 : SBMDirichletImpulseResponses C K B :=
        { gamma := γ, blockg := fun _ _ _ => 0, mf_gamma := fun _ _ _ => 0 }
      let r := sbmResample st0 none
      match r.2 with
      | Except.error e => Except.error e
      | Except.ok _ => Except.ok { r.1 with mf_gamma := fun _ _ b => γ b }

/-- SBMDirichletImpulseResponses.rvs (lines 210-216): raises. -/
def sbmRvs {C K B : ℕ} (st : SBMDirichletImpulseResponses C K B) :
    Except String Unit :=
  let _ := st; Except.error "NotImplementedError"

/-- SBMDirichletImpulseResponses.log_likelihood (lines 218-231): raises. -/
def sbmLogLikelihood {C K B : ℕ} (st : SBMDirichletImpulseResponses C K B)
    (x : Arr3) : Except String ℝ :=
  let _ := st; let _ := x; Except.error "NotImplementedError"

/-- SBMDirichletImpulseResponses._get_suff_statistics (lines 236-250):
raises. -/
def sbmGetSuffStatistics {C K B : ℕ}
    (st : SBMDirichletImpulseResponses C K B) (data : Option Arr4) :
    Except String (ℕ → ℕ → ℕ → ℝ) :=
  let _ := st; let _ := data; Except.error "NotImplementedError"

/-- SBMDirichletImpulseResponses.expected_g (lines 273-282): raises. -/
def sbmExpectedG {C K B : ℕ} (st : SBMDirichletImpulseResponses C K B) :
    Except String (Fin C → Fin C → Fin B → ℝ) :=
  let _ := st; Except.error "NotImplementedError"

/-- SBMDirichletImpulseResponses.expected_log_g (lines 284-297): raises. -/
def sbmExpectedLogG {C K B : ℕ} (st : SBMDirichletImpulseResponses C K B) :
    Except String (Fin C → Fin C → Fin B → ℝ) :=
  let _ := st; Except.error "NotImplementedError"

/-- SBMDirichletImpulseResponses.mf_update_gamma (lines 299-305): raises. -/
def sbmMfUpdateGamma {C K B : ℕ} (st : SBMDirichletImpulseResponses C K B)
    (EZ : Arr4) : SBMDirichletImpulseResponses C K B × Except String Unit :=
  let _ := EZ; (st, Except.error "NotImplementedError")

/-- SBMDirichletImpulseResponses.expected_log_likelihood (307-309):
raises. -/
def sbmExpectedLogLikelihood {C K B : ℕ}
    (st : SBMDirichletImpulseResponses C K B) (x : Arr3) :
    Except String Unit :=
  let _ := st; let _ := x; Except.error "NotImplementedError"

/-- SBMDirichletImpulseResponses.meanfieldupdate (lines 311-313): raises. -/
def sbmMeanfieldupdate {C K B : ℕ} (st : SBMDirichletImpulseResponses C K B)
    (EZ : Arr4) : SBMDirichletImpulseResponses C K B × Except String Unit :=
  let _ := EZ; (st, Except.error "NotImplementedError")

/-- SBMDirichletImpulseResponses.get_vlb (lines 315-334): raises. -/
def sbmGetVlb {C K B : ℕ} (st : SBMDirichletImpulseResponses C K B) :
    Except String ℝ :=
  let _ := st; Except.error "NotImplementedError"

/-- SBMDirichletImpulseResponses.resample_from_mf (lines 336-345):
raises. -/
def sbmResampleFromMf {C K B : ℕ} (st : SBMDirichletImpulseResponses C K B) :
    SBMDirichletImpulseResponses C K B × Except String Unit :=
  (st, Except.error "NotImplementedError")

/-- A length-B real vector lies on the probability simplex: entrywise
non-negative and summing to one. -/
def onSimplex {B : ℕ} (v : Fin B → ℝ) : Prop :=
  (∀ b, 0 ≤ v b) ∧ (∑ b, v b) = 1

/-- The abstract Dirichlet sampler is faithful: every draw it produces lies
on the simplex (true of np.random.dirichlet on positive concentrations). -/
def SimplexSampler {K B : ℕ} (sampler : Sampler K B) : Prop :=
  ∀ k1 k2 α, onSimplex (sampler k1 k2 α)

/-- Invariant of claim C8: every g[k1, k2, :] lies on the simplex. -/
def gInvariant {K B : ℕ} (st : DirichletImpulseResponses K B) : Prop :=
  ∀ k1 k2, onSimplex (st.g k1 k2)

/-- A concrete sampler for K = B = 1: the unique point of the 1-simplex. -/
def sampOne : Sampler 1 1 := fun _ _ _ _ => 1

/-- A concrete model state with K = B = 1. -/
def stA : DirichletImpulseResponses 1 1 :=
  { gamma := fun _ => 1, g := fun _ _ _ => 1, mf_gamma := fun _ _ _ => 1 }

/-- A concrete all-ones data array of shape (2, 1, 1, 1). -/
def dA : Arr4 := { T := 2, d1 := 1, d2 := 1, d3 := 1, val := fun _ _ _ _ => 1 }

/-- A concrete 4-D array whose second axis (length 3) mismatches K = 1. -/
def dBad : Arr4 := { T := 2, d1 := 3, d2 := 1, d3 := 1, val := fun _ _ _ _ => 1 }

/-- A concrete model state with K = 1, B = 2 and the all-ones prior. -/
noncomputable def stU : DirichletImpulseResponses 1 2 :=
  { gamma := fun _ => 1, g := fun _ _ _ => 1 / 2, mf_gamma := fun _ _ _ => 1 }

/-- A concrete uniform array of shape (1, 1, 2) with every entry 1/2. -/
noncomputable def xU : Arr3 := { d1 := 1, d2 := 1, d3 := 2, val := fun _ _ _ => 1 / 2 }

/-- A concrete SBM state (built literally, since sbmInit always raises). -/
def sbmA : SBMDirichletImpulseResponses 1 1 1 :=
  { gamma := fun _ => 1, blockg := fun _ _ _ => 0, mf_gamma := fun _ _ _ => 0 }

/-- C1: resample(data) sets every g[k1, k2, :] to a Dirichlet draw at
concentration gamma + sufficient_statistics(data)[k1, k2, :]; with data
absent the sufficient statistics vanish, so the draw is from the prior
Dirichlet(gamma). The Dirichlet sampler is modelled abstractly. -/
theorem resample_posterior_draw {K B : ℕ} (sampler : Sampler K B)
    (st : DirichletImpulseResponses K B) (d : Arr4)
    (h1 : d.d1 = K) (h2 : d.d2 = K) (h3 : d.d3 = B) :
    (∀ k1 k2, (resample sampler st (some d)).1.g k1 k2 =
        sampler k1 k2 (fun b =>
          st.gamma b + getSuffStatistics st (some d) k1.val k2.val b.val))
    ∧ (∀ k1 k2, (resample sampler st none).1.g k1 k2 =
        sampler k1 k2 st.gamma) := by
  constructor
  · intro k1 k2
    funext b
    simp only [resample, h1, h2, h3, and_self, if_true]
    rfl
  · intro k1 k2
    have hα : alphaPost st none k1 k2 = st.gamma := by
      funext b
      simp [alphaPost, getSuffStatistics]
    funext b
    simp [resample, hα]

/-- Closed instance of C1 at a concrete state, sampler and data array. -/
theorem resample_posterior_draw_witness :
    (∀ k1 k2, (resample sampOne stA (some dA)).1.g k1 k2 =
        sampOne k1 k2 (fun b =>
          stA.gamma b + getSuffStatistics stA (some dA) k1.val k2.val b.val))
    ∧ (∀ k1 k2, (resample sampOne stA none).1.g k1 k2 =
        sampOne k1 k2 stA.gamma) :=
  resample_posterior_draw sampOne stA dA rfl rfl rfl

/-- C5: resample on a 4-D data array whose second or third axis length
differs from the model K fails the shape assert and returns an
invalid-shape error rather than computing the sufficient statistics. -/
theorem resample_bad_shape_raises {K B : ℕ} (sampler : Sampler K B)
    (st : DirichletImpulseResponses K B) (d : Arr4)
    (h : d.d1 ≠ K ∨ d.d2 ≠ K) :
    (resample sampler st (some d)).2 =
      Except.error "Data must be a TxKxKxB array of parents" := by
  have hc : ¬(d.d1 = K ∧ d.d2 = K ∧ d.d3 = B) := by tauto
  simp [resample, hc]

/-- Closed instance of C5 at a concrete mismatched data array. -/
theorem resample_bad_shape_raises_witness :
    (resample sampOne stA (some dBad)).2 =
      Except.error "Data must be a TxKxKxB array of parents" :=
  resample_bad_shape_raises sampOne stA dBad (Or.inl (by decide))

/-- C6: for a (T, K, K, B) data array with non-negative entries the
sufficient statistics are the elementwise sum over the time axis, and with
data absent they are the all-zero K x K x B array. -/
theorem suff_statistics_time_sum {K B : ℕ}
    (st : DirichletImpulseResponses K B) (d : Arr4)
    (h1 : d.d1 = K) (h2 : d.d2 = K) (h3 : d.d3 = B)
    (hpos : ∀ t k1 k2 b, 0 ≤ d.val t k1 k2 b) :
    (∀ k1 k2 b : ℕ, getSuffStatistics st (some d) k1 k2 b =
        ∑ t ∈ Finset.range d.T, d.val t k1 k2 b)
    ∧ (∀ k1 k2 b : ℕ, getSuffStatistics st none k1 k2 b = 0) :=
  ⟨fun _ _ _ => rfl, fun _ _ _ => rfl⟩

/-- Closed instance of C6 at a concrete data array. -/
theorem suff_statistics_time_sum_witness :
    (∀ k1 k2 b : ℕ, getSuffStatistics stA (some dA) k1 k2 b =
        ∑ t ∈ Finset.range dA.T, dA.val t k1 k2 b)
    ∧ (∀ k1 k2 b : ℕ, getSuffStatistics stA none k1 k2 b = 0) :=
  suff_statistics_time_sum stA dA rfl rfl rfl
    (fun _ _ _ _ => zero_le_one)

/-- C10: resample_from_mf mutates only g: gamma and mf_gamma (and the type
level sizes K and B) are unchanged, and every new g[k1, k2, :] is a
Dirichlet draw at concentration mf_gamma[k1, k2, :], the sampler being
modelled abstractly. -/
theorem resample_from_mf_frame {K B : ℕ} (sampler : Sampler K B)
    (st : DirichletImpulseResponses K B) :
    (resample_from_mf sampler st).gamma = st.gamma
    ∧ (resample_from_mf sampler st).mf_gamma = st.mf_gamma
    ∧ ∀ k1 k2, (resample_from_mf sampler st).g k1 k2 =
        sampler k1 k2 (st.mf_gamma k1 k2) :=
  ⟨rfl, rfl, fun _ _ => rfl⟩

/-- C9: errors are atomic: when resample raises (it is the only fallible
method that writes state; log_likelihood only reads), the returned state
has g, mf_gamma and gamma exactly as before the call, because the shape
assert precedes every assignment. -/
theorem resample_error_atomic {K B : ℕ} (sampler : Sampler K B)
    (st : DirichletImpulseResponses K B) (data : Option Arr4) (e : String)
    (h : (resample sampler st data).2 = Except.error e) :
    (resample sampler st data).1.g = st.g
    ∧ (resample sampler st data).1.mf_gamma = st.mf_gamma
    ∧ (resample sampler st data).1.gamma = st.gamma := by
  match data with
  | none => simp [resample] at h
  | some d =>
    by_cases hc : d.d1 = K ∧ d.d2 = K ∧ d.d3 = B
    · simp [resample, hc] at h
    · simp [resample, hc]

/-- Closed instance of C9 at a concrete failing resample call. -/
theorem resample_error_atomic_witness :
    (resample sampOne stA (some dBad)).1.g = stA.g
    ∧ (resample sampOne stA (some dBad)).1.mf_gamma = stA.mf_gamma
    ∧ (resample sampOne stA (some dBad)).1.gamma = stA.gamma :=
  resample_error_atomic sampOne stA (some dBad)
    "Data must be a TxKxKxB array of parents" rfl

/-- C2: meanfield_sgdstep(EZ, minibatchfrac, stepsize) sets mf_gamma to
(1 - stepsize) * mf_gamma_old + stepsize * (gamma + sum_time(EZ) /
minibatchfrac); with stepsize = 1 and minibatchfrac = 1, and equally for
meanfieldupdate(EZ), the new mf_gamma is exactly gamma + sum_time(EZ). -/
theorem meanfield_sgdstep_update {K B : ℕ}
    (st : DirichletImpulseResponses K B) (EZ : Arr4)
    (hK1 : EZ.d1 = K) (hK2 : EZ.d2 = K) (hB : EZ.d3 = B)
    (m s : ℝ) (hm : 0 < m) :
    ((meanfield_sgdstep st EZ m s).mf_gamma = fun k1 k2 b =>
        (1 - s) * st.mf_gamma k1 k2 b
          + s * (st.gamma b
              + (∑ t ∈ Finset.range EZ.T, EZ.val t k1.val k2.val b.val) / m))
    ∧ ((meanfield_sgdstep st EZ 1 1).mf_gamma = fun k1 k2 b =>
        st.gamma b + ∑ t ∈ Finset.range EZ.T, EZ.val t k1.val k2.val b.val)
    ∧ ((meanfieldupdate st EZ).mf_gamma = fun k1 k2 b =>
        st.gamma b + ∑ t ∈ Finset.range EZ.T, EZ.val t k1.val k2.val b.val) := by
  refine ⟨rfl, ?_, ?_⟩ <;>
  · funext k1 k2 b
    simp [meanfield_sgdstep, meanfieldupdate, mf_update_gamma]

/-- Closed instance of C2 at a concrete state and EZ array. -/
theorem meanfield_sgdstep_update_witness :
    ((meanfield_sgdstep stA dA 2 (1 / 2)).mf_gamma = fun k1 k2 b =>
        (1 - 1 / 2) * stA.mf_gamma k1 k2 b
          + 1 / 2 * (stA.gamma b
              + (∑ t ∈ Finset.range dA.T, dA.val t k1.val k2.val b.val) / 2))
    ∧ ((meanfield_sgdstep stA dA 1 1).mf_gamma = fun k1 k2 b =>
        stA.gamma b + ∑ t ∈ Finset.range dA.T, dA.val t k1.val k2.val b.val)
    ∧ ((meanfieldupdate stA dA).mf_gamma = fun k1 k2 b =>
        stA.gamma b + ∑ t ∈ Finset.range dA.T, dA.val t k1.val k2.val b.val) :=
  meanfield_sgdstep_update stA dA rfl rfl rfl 2 (1 / 2) (by norm_num)

/-- C4 (counterexample to the claim as stated): at a concrete state and EZ,
the second meanfield_sgdstep call with the same EZ at stepsize 1.0 and
minibatchfrac 1.0 produces exactly the same mf_gamma as the first, so the
claimed non-idempotence is false: the update does not accumulate. -/
theorem meanfield_sgdstep_twice_equal :
    (meanfield_sgdstep (meanfield_sgdstep stA dA 1 1) dA 1 1).mf_gamma =
      (meanfield_sgdstep stA dA 1 1).mf_gamma := by
  funext k1 k2 b
  simp [meanfield_sgdstep, mf_update_gamma]

/-- C4 (amended): with stepsize = 1 and minibatchfrac = 1 the update
overwrites mf_gamma with gamma + sum_time(EZ), computed from the prior
gamma and not from the current mf_gamma, so calling meanfield_sgdstep twice
with the same EZ at stepsize 1.0 IS idempotent: the second call reproduces
the first call result exactly. -/
theorem meanfield_sgdstep_idempotent {K B : ℕ}
    (st : DirichletImpulseResponses K B) (EZ : Arr4) :
    meanfield_sgdstep (meanfield_sgdstep st EZ 1 1) EZ 1 1 =
      meanfield_sgdstep st EZ 1 1 := by
  simp only [meanfield_sgdstep, mf_update_gamma]
  congr 1
  funext k1 k2 b
  ring

/-- C7: log_likelihood on a K x K x B array returns K^2 times the Dirichlet
log-normalizer plus the sum over pairs and bases of (gamma_b - 1) * ln x;
any other shape raises the invalid-input assert; and with gamma all ones
and x uniform (every entry 1/B) it returns -K^2 * lnGamma(B). -/
theorem log_likelihood_spec {K B : ℕ} (st : DirichletImpulseResponses K B) :
    (∀ x : Arr3, x.d1 = K → x.d2 = K → x.d3 = B →
        log_likelihood st x = Except.ok ((K : ℝ) ^ 2 *
            ((∑ b, gammaln (st.gamma b)) - gammaln (∑ b, st.gamma b))
          + ∑ k1 ∈ Finset.range K, ∑ k2 ∈ Finset.range K, ∑ b : Fin B,
              (st.gamma b - 1) * Real.log (x.val k1 k2 b.val)))
    ∧ (∀ x : Arr3, ¬(x.d1 = K ∧ x.d2 = K ∧ x.d3 = B) →
        log_likelihood st x =
          Except.error "x must be a KxKxB array of impulse responses")
    ∧ ((∀ b, st.gamma b = 1) → ∀ x : Arr3, x.d1 = K → x.d2 = K → x.d3 = B →
        (∀ k1 k2 b, x.val k1 k2 b = 1 / B) →
        log_likelihood st x = Except.ok (-((K : ℕ) : ℝ) ^ 2 *
          gammaln ((B : ℕ) : ℝ))) := by
  have main : ∀ x : Arr3, x.d1 = K → x.d2 = K → x.d3 = B →
      log_likelihood st x = Except.ok ((K : ℝ) ^ 2 *
          ((∑ b, gammaln (st.gamma b)) - gammaln (∑ b, st.gamma b))
        + ∑ k1 ∈ Finset.range K, ∑ k2 ∈ Finset.range K, ∑ b : Fin B,
            (st.gamma b - 1) * Real.log (x.val k1 k2 b.val)) := by
    intro x hx1 hx2 hx3
    simp [log_likelihood, hx1, hx2, hx3]
  refine ⟨main, ?_, ?_⟩
  · intro x hx
    simp [log_likelihood, hx]
  · intro hg x hx1 hx2 hx3 hval
    rw [main x hx1 hx2 hx3]
    have e1 : (∑ b : Fin B, gammaln (st.gamma b)) = 0 := by
      have hz : ∀ b : Fin B, gammaln (st.gamma b) = 0 := by
        intro b
        rw [hg b]
        simp [gammaln, Real.Gamma_one]
      simp [hz]
    have e2 : (∑ b : Fin B, st.gamma b) = ((B : ℕ) : ℝ) := by
      simp [hg]
    have e3 : (∑ k1 ∈ Finset.range K, ∑ k2 ∈ Finset.range K, ∑ b : Fin B,
        (st.gamma b - 1) * Real.log (x.val k1 k2 b.val)) = 0 := by
      simp [hg]
    rw [e1, e2, e3]
    congr 1
    ring

/-- Closed instance of C7: with K = 1, B = 2, gamma all ones and x uniform
with every entry 1/2, log_likelihood returns -1^2 * lnGamma(2). -/
theorem log_likelihood_spec_witness :
    log_likelihood stU xU =
      Except.ok (-((1 : ℕ) : ℝ) ^ 2 * gammaln ((2 : ℕ) : ℝ)) :=
  (log_likelihood_spec stU).2.2 (fun _ => rfl) xU rfl rfl rfl
    (fun _ _ _ => rfl)

/-- C8: construction builds g of shape (K, K, B) (the shape is carried by
the types) with every pair on the probability simplex, and mf_gamma equal
to gamma broadcast over all K x K pairs; the simplex invariant on g is
preserved by every subsequent resample and resample_from_mf call, with the
Dirichlet sampler modelled as producing simplex points. -/
theorem init_establishes_invariants {K B : ℕ} (sampler : Sampler K B)
    (hs : SimplexSampler sampler) (garg : GammaArg) (γ : Fin B → ℝ)
    (hg : gammaOfArg B garg = Except.ok γ) :
    (∃ st, dirInit sampler garg = Except.ok st ∧ gInvariant st
       ∧ st.gamma = γ ∧ st.mf_gamma = fun _ _ b => γ b)
    ∧ (∀ st data, gInvariant st → gInvariant (resample sampler st data).1)
    ∧ (∀ st : DirichletImpulseResponses K B,
        gInvariant (resample_from_mf sampler st)) := by
  refine ⟨?_, ?_, ?_⟩
  · have hinit : dirInit sampler garg = Except.ok
        ⟨γ, fun k1 k2 b =>
            sampler k1 k2 (alphaPost ⟨γ, fun _ _ _ => 0, fun _ _ _ => 0⟩
              none k1 k2) b,
          fun _ _ b => γ b⟩ := by
      unfold dirInit
      rw [hg]
      rfl
    exact ⟨_, hinit, fun k1 k2 => hs k1 k2 _, rfl, rfl⟩
  · intro st data hinv
    match data with
    | none =>
      intro k1 k2
      exact hs k1 k2 _
    | some d =>
      by_cases hc : d.d1 = K ∧ d.d2 = K ∧ d.d3 = B
      · intro k1 k2
        simp only [resample, if_pos hc]
        exact hs k1 k2 _
      · intro k1 k2
        simp only [resample, if_neg hc]
        exact hinv k1 k2
  · intro st k1 k2
    exact hs k1 k2 _

/-- Closed instance of C8 at K = B = 1 with the concrete simplex sampler
and an absent gamma argument. -/
theorem init_establishes_invariants_witness :
    (∃ st, dirInit sampOne GammaArg.absent = Except.ok st ∧ gInvariant st
       ∧ st.gamma = (fun _ => 1) ∧ st.mf_gamma = fun _ _ b => (fun _ => (1 : ℝ)) b)
    ∧ (∀ st data, gInvariant st → gInvariant (resample sampOne st data).1)
    ∧ (∀ st : DirichletImpulseResponses 1 1,
        gInvariant (resample_from_mf sampOne st)) :=
  init_establishes_invariants sampOne
    (fun _ _ _ => ⟨fun _ => zero_le_one, by simp [sampOne]⟩)
    GammaArg.absent (fun _ => 1) rfl

/-- C3: the SBM constructor does not complete: the __init__ body calls
resample(), which immediately raises NotImplementedError, so the exception
propagates out of construction; every modelled operation beyond
construction likewise raises NotImplementedError. -/
theorem sbm_construction_raises :
    sbmInit 2 3 4 GammaArg.absent =
      (Except.error "NotImplementedError" :
        Except String (SBMDirichletImpulseResponses 2 3 4))
    ∧ sbmRvs sbmA = Except.error "NotImplementedError"
    ∧ (sbmResample sbmA none).2 = Except.error "NotImplementedError"
    ∧ sbmLogLikelihood sbmA xU = Except.error "NotImplementedError"
    ∧ sbmGetSuffStatistics sbmA none = Except.error "NotImplementedError"
    ∧ sbmExpectedG sbmA = Except.error "NotImplementedError"
    ∧ sbmExpectedLogG sbmA = Except.error "NotImplementedError"
    ∧ (sbmMfUpdateGamma sbmA dA).2 = Except.error "NotImplementedError"
    ∧ sbmExpectedLogLikelihood sbmA xU = Except.error "NotImplementedError"
    ∧ (sbmMeanfieldupdate sbmA dA).2 = Except.error "NotImplementedError"
    ∧ sbmGetVlb sbmA = Except.error "NotImplementedError"
    ∧ (sbmResampleFromMf sbmA).2 = Except.error "NotImplementedError" :=
  ⟨rfl, rfl, rfl, rfl, rfl, rfl, rfl, rfl, rfl, rfl, rfl, rfl⟩

end PyHawkes
